import Mathlib

/-!
Verification of the acid-vulkan frame-orchestration core.

Shallow embedding of the repository's C++ sources:
 - src/phvk_descriptors.cpp / .h : DescriptorAllocatorGrowable
 - src/phvk_engine.h             : DeleteQueue, FrameData
 - src/phvk_engine.cpp           : phVkEngine::draw, phVkEngine::immediateSubmit,
                                   phVkEngine::initBackgroundPipelines
 - src/phvk_pipelines.cpp        : vkutil::load_shader_module

Vulkan handles are modelled as natural numbers dispensed by a device model
that also logs the driver calls the proofs need to observe.  GPU
nondeterminism (whether a descriptor-set allocation succeeds, whether a
fence signals within the wait timeout, what the swapchain reports) is
passed in explicitly as oracle parameters.
-/

set_option maxHeartbeats 1000000

/-- VkDescriptorType, kept abstract: only its identity matters here. -/
abbrev VkDescriptorType := Nat

/-- phvk_descriptors.h: descriptor type plus per-set multiplier.  The C++
field is a float; no claim computes with it, so it is carried as a Nat
multiplier. -/
structure PoolSizeRatio where
  type : VkDescriptorType
  ratio : Nat
deriving DecidableEq, Repr

/-- The subset of VkResult values vkAllocateDescriptorSets can produce that
DescriptorAllocatorGrowable.allocate distinguishes. -/
inductive AllocResult where
  | success
  | outOfPoolMemory
  | fragmentedPool
  | otherError
deriving DecidableEq, Repr

/-- Model of the Vulkan device as the descriptor allocator sees it: a source
of fresh VkDescriptorPool handles, plus observation logs of the driver calls
vkCreateDescriptorPool (handle, maxSets, pool sizes), vkResetDescriptorPool
and vkDestroyDescriptorPool. -/
structure VulkanDevice where
  next_pool_id : Nat
  created : List (Nat × Nat × List (VkDescriptorType × Nat))
  resets : List Nat
  destroyed : List Nat
deriving DecidableEq, Repr

/-- phvk_descriptors.h: the growable allocator state.  Pools are handles
(Nat).  sets_per_pool is uint32_t in the source. -/
structure DescriptorAllocatorGrowable where
  ratios : List PoolSizeRatio
  full_pools : List Nat
  ready_pools : List Nat
  sets_per_pool : Nat
deriving DecidableEq, Repr

namespace DescriptorAllocatorGrowable

/-- phvk_descriptors.cpp createPool: builds pool_sizes from the ratios
(descriptorCount = ratio * set_count) and calls vkCreateDescriptorPool with
maxSets = set_count, yielding a fresh handle. -/
def createPool (device : VulkanDevice) (set_count : Nat)
    (pool_ratios : List PoolSizeRatio) : Nat × VulkanDevice :=
  let pool_sizes := pool_ratios.map (fun r => (r.type, r.ratio * set_count))
  let new_pool := device.next_pool_id
  (new_pool,
   { device with
      next_pool_id := device.next_pool_id + 1,
      created := device.created ++ [(new_pool, set_count, pool_sizes)] })

/-- phvk_descriptors.cpp init: replaces ratios, creates one pool of
max_sets sets, sets sets_per_pool = max_sets * 1.5 (double arithmetic is
exact here and the uint32_t conversion truncates, hence 3 * max_sets / 2),
and pushes the new pool onto ready_pools.  Note: no clamp is applied. -/
def init (device : VulkanDevice) (self : DescriptorAllocatorGrowable)
    (max_sets : Nat) (pool_ratios : List PoolSizeRatio) :
    DescriptorAllocatorGrowable × VulkanDevice :=
  let c := createPool device max_sets pool_ratios
  ({ self with
      ratios := pool_ratios,
      sets_per_pool := 3 * max_sets / 2,
      ready_pools := self.ready_pools ++ [c.1] },
   c.2)

/-- phvk_descriptors.cpp clearPools: vkResetDescriptorPool on every ready
pool (in place) and every full pool, full pools are appended to
ready_pools, then full_pools is cleared.  No pool is destroyed. -/
def clearPools (device : VulkanDevice) (self : DescriptorAllocatorGrowable) :
    DescriptorAllocatorGrowable × VulkanDevice :=
  ({ self with
      ready_pools := self.ready_pools ++ self.full_pools,
      full_pools := [] },
   { device with resets := device.resets ++ self.ready_pools ++ self.full_pools })

/-- phvk_descriptors.cpp destroyPools: vkDestroyDescriptorPool on every
pool of both lists, then both lists are cleared. -/
def destroyPools (device : VulkanDevice) (self : DescriptorAllocatorGrowable) :
    DescriptorAllocatorGrowable × VulkanDevice :=
  ({ self with ready_pools := [], full_pools := [] },
   { device with destroyed := device.destroyed ++ self.ready_pools ++ self.full_pools })

/-- Result of getPool: the pool handed out, plus the updated device and
allocator state. -/
structure GetPoolOut where
  pool : Nat
  device : VulkanDevice
  state : DescriptorAllocatorGrowable
deriving DecidableEq, Repr

/-- phvk_descriptors.cpp getPool: pop the back of ready_pools if nonempty;
otherwise create a new pool of sets_per_pool sets and then grow
sets_per_pool by 1.5 (truncated), clamping the result to 4092. -/
def getPool (device : VulkanDevice) (self : DescriptorAllocatorGrowable) :
    GetPoolOut :=
  match self.ready_pools.getLast? with
  | some new_pool =>
      { pool := new_pool, device := device,
        state := { self with ready_pools := self.ready_pools.dropLast } }
  | none =>
      let c := createPool device self.sets_per_pool self.ratios
      let grown := 3 * self.sets_per_pool / 2
      { pool := c.1, device := c.2,
        state := { self with
          sets_per_pool := if grown > 4092 then 4092 else grown } }

/-- Result of allocate.  fatal records whether VK_CHECK aborted the
process on the retry.  served is the pool that satisfied the allocation
(meaningful when fatal is false).  attempts is the observation log: for
each vkAllocateDescriptorSets call, the pool attempted and the contents of
full_pools at the moment of the attempt. -/
structure AllocateOutcome where
  fatal : Bool
  served : Nat
  attempts : List (Nat × List Nat)
  device : VulkanDevice
  state : DescriptorAllocatorGrowable
deriving DecidableEq, Repr

/-- phvk_descriptors.cpp allocate: getPool, attempt the allocation; on
VK_ERROR_OUT_OF_POOL_MEMORY or VK_ERROR_FRAGMENTED_POOL push the pool onto
full_pools, getPool again and retry under VK_CHECK (any nonzero result
aborts); finally push the pool used onto ready_pools.  The oracle decides
what vkAllocateDescriptorSets returns for a given pool. -/
def allocate (oracle : Nat → AllocResult) (device : VulkanDevice)
    (self : DescriptorAllocatorGrowable) : AllocateOutcome :=
  let g1 := getPool device self
  let r1 := oracle g1.pool
  if r1 = .outOfPoolMemory ∨ r1 = .fragmentedPool then
    let s2 := { g1.state with full_pools := g1.state.full_pools ++ [g1.pool] }
    let g2 := getPool g1.device s2
    let attempts := [(g1.pool, g1.state.full_pools), (g2.pool, g2.state.full_pools)]
    if oracle g2.pool = .success then
      { fatal := false, served := g2.pool, attempts := attempts,
        device := g2.device,
        state := { g2.state with ready_pools := g2.state.ready_pools ++ [g2.pool] } }
    else
      { fatal := true, served := g2.pool, attempts := attempts,
        device := g2.device, state := g2.state }
  else
    { fatal := false, served := g1.pool,
      attempts := [(g1.pool, g1.state.full_pools)],
      device := g1.device,
      state := { g1.state with ready_pools := g1.state.ready_pools ++ [g1.pool] } }

/-- The allocator states reachable through its public operations, starting
from a default-constructed allocator (empty vectors; sets_per_pool is an
arbitrary indeterminate value v) against a device with no pools yet.  A
fatal allocate has no successor: the process aborted. -/
inductive Reachable : VulkanDevice → DescriptorAllocatorGrowable → Prop where
  | boot (n v : Nat) : Reachable ⟨n, [], [], []⟩ ⟨[], [], [], v⟩
  | step_init (device : VulkanDevice) (s : DescriptorAllocatorGrowable)
      (max_sets : Nat) (pool_ratios : List PoolSizeRatio) :
      Reachable device s →
      Reachable (init device s max_sets pool_ratios).2
        (init device s max_sets pool_ratios).1
  | step_allocate (oracle : Nat → AllocResult) (device : VulkanDevice)
      (s : DescriptorAllocatorGrowable) :
      Reachable device s →
      (allocate oracle device s).fatal = false →
      Reachable (allocate oracle device s).device (allocate oracle device s).state
  | step_clearPools (device : VulkanDevice) (s : DescriptorAllocatorGrowable) :
      Reachable device s →
      Reachable (clearPools device s).2 (clearPools device s).1
  | step_destroyPools (device : VulkanDevice) (s : DescriptorAllocatorGrowable) :
      Reachable device s →
      Reachable (destroyPools device s).2 (destroyPools device s).1

/-- Structural invariant: the pool handles held by the allocator are
pairwise distinct (in particular ready_pools and full_pools are disjoint)
and all below the device's fresh-handle counter. -/
def Inv (device : VulkanDevice) (s : DescriptorAllocatorGrowable) : Prop :=
  (s.ready_pools ++ s.full_pools).Nodup ∧
  ∀ p ∈ s.ready_pools ++ s.full_pools, p < device.next_pool_id

end DescriptorAllocatorGrowable

/-- phvk_engine.h DeleteQueue: a deque of deletion actions.  Actions are
modelled abstractly by an arbitrary type; flush returns the invocation
order alongside the cleared queue. -/
structure DeleteQueue (α : Type) where
  fifo : List α
deriving DecidableEq, Repr

namespace DeleteQueue

/-- phvk_engine.h pushFunction: push_back onto the deque. -/
def pushFunction {α : Type} (q : DeleteQueue α) (f : α) : DeleteQueue α :=
  ⟨q.fifo ++ [f]⟩

/-- phvk_engine.h flush: call every pending action iterating the deque in
reverse (rbegin to rend), then clear it.  The first component is the order
in which the actions are invoked. -/
def flush {α : Type} (q : DeleteQueue α) : List α × DeleteQueue α :=
  (q.fifo.reverse, ⟨[]⟩)

/-- A default-constructed DeleteQueue: empty deque. -/
def empty {α : Type} : DeleteQueue α := ⟨[]⟩

end DeleteQueue

/-- Fence identity in the engine: one render fence per frame slot, plus the
dedicated immediate-submit fence (a distinct VkFence handle created by
initSyncStructures). -/
inductive FenceId where
  | slotFence (i : Nat)
  | immFence
deriving DecidableEq, Repr

/-- Command-buffer identity: one main command buffer per frame slot, plus
the dedicated immediate-submit command buffer (allocated from its own
command pool in initImguiCommands). -/
inductive CmdId where
  | slotCmd (i : Nat)
  | immCmd
deriving DecidableEq, Repr

/-- Semantic state of a VkFence: signaled, unsignaled, or pending (handed
to a queue submission whose GPU work may or may not have completed). -/
inductive FenceState where
  | signaled
  | unsignaled
  | pending
deriving DecidableEq, Repr

/-- vkWaitForFences with the engine's bounded timeout: a signaled fence
returns success at once; a pending fence succeeds exactly when the GPU
finishes within the timeout (gpu_done, decided by the environment); an
unsignaled, unsubmitted fence can only time out. Returns the observed
fence state on success and none on VK_TIMEOUT. -/
def waitFence (f : FenceState) (gpu_done : Bool) : Option FenceState :=
  match f with
  | .signaled => some .signaled
  | .pending => if gpu_done then some .signaled else none
  | .unsignaled => none

/-- The swapchain results phVkEngine::draw distinguishes on acquire and
present: VK_SUCCESS, VK_SUBOPTIMAL_KHR, VK_ERROR_OUT_OF_DATE_KHR. -/
inductive SwapchainResult where
  | success
  | suboptimal
  | outOfDate
deriving DecidableEq, Repr

/-- Observable driver calls made by draw and immediateSubmit, in program
order. -/
inductive EngineEvent where
  | updateScene
  | fenceWait (f : FenceId) (ok : Bool)
  | deleteQueueFlush (slot : Nat)
  | clearFramePools (slot : Nat)
  | acquireImage (r : SwapchainResult)
  | fenceReset (f : FenceId)
  | cmdReset (c : CmdId)
  | beginCmd (c : CmdId)
  | recordCommands (slot : Nat)
  | recordImmediate
  | endCmd (c : CmdId)
  | queueSubmit (f : FenceId)
  | presentImage (r : SwapchainResult)
  | abortProcess
deriving DecidableEq, Repr

/-- phvk_engine.h FrameData, restricted to what the claims observe: the
slot's render fence state and its main command buffer (tagged with the
frame number whose commands it currently holds, none when reset).  The
slot's semaphores, command pool, descriptor allocator and delete queue are
driven through the event trace instead. -/
structure FrameData where
  render_fence : FenceState
  command_buffer : Option Nat
deriving DecidableEq, Repr

/-- phvk_engine.h: number of buffering frames. -/
def FRAME_OVERLAP : Nat := 2

/-- phVkEngine, restricted to the frame-loop state the claims observe. -/
structure phVkEngine where
  frame_number : Nat
  frames : List FrameData
  resize_requested : Bool
  imm_fence : FenceState
  imm_command_buffer : Option Nat
deriving DecidableEq, Repr

namespace phVkEngine

/-- phvk_engine.h getCurrentFrame: frames[frame_number % FRAME_OVERLAP]. -/
def getCurrentFrame (e : phVkEngine) : FrameData :=
  e.frames.getD (e.frame_number % FRAME_OVERLAP) ⟨.unsignaled, none⟩

/-- Environment of one draw tick: whether GPU work pending on the current
fence finishes within the wait timeout, and what the swapchain reports on
acquire and on present. -/
structure DrawEnv where
  gpu_done : Bool
  acquire : SwapchainResult
  present : SwapchainResult
deriving DecidableEq, Repr

/-- Outcome of draw or immediateSubmit: the engine state after the call,
the trace of driver calls, and whether VK_CHECK aborted the process. -/
structure DrawOut where
  engine : phVkEngine
  trace : List EngineEvent
  fatal : Bool
deriving DecidableEq, Repr

/-- phvk_engine.cpp phVkEngine::draw: update the scene; VK_CHECK-wait on
the current slot's render fence (1 s timeout, expiry aborts); flush the
slot's delete queue, clear its frame descriptor pools, flush again;
acquire a swapchain image; on VK_ERROR_OUT_OF_DATE_KHR set
resize_requested and return; otherwise reset the fence, reset and record
the command buffer, submit it with the slot's render fence, present, set
resize_requested on VK_ERROR_OUT_OF_DATE_KHR from present, and increment
frame_number. -/
def draw (env : DrawEnv) (e : phVkEngine) : DrawOut :=
  let i := e.frame_number % FRAME_OVERLAP
  let cur := e.frames.getD i ⟨.unsignaled, none⟩
  match waitFence cur.render_fence env.gpu_done with
  | none =>
      { engine := e,
        trace := [.updateScene, .fenceWait (.slotFence i) false, .abortProcess],
        fatal := true }
  | some f1 =>
      let e1 : phVkEngine :=
        { e with frames := e.frames.set i { cur with render_fence := f1 } }
      let tr1 : List EngineEvent :=
        [.updateScene, .fenceWait (.slotFence i) true,
         .deleteQueueFlush i, .clearFramePools i, .deleteQueueFlush i,
         .acquireImage env.acquire]
      if env.acquire = .outOfDate then
        { engine := { e1 with resize_requested := true }, trace := tr1,
          fatal := false }
      else
        let e3 : phVkEngine :=
          { e1 with frames :=
              e1.frames.set i ⟨.pending, some e.frame_number⟩ }
        { engine :=
            { e3 with
              resize_requested :=
                if env.present = .outOfDate then true else e.resize_requested,
              frame_number := e.frame_number + 1 },
          trace := tr1 ++
            [.fenceReset (.slotFence i), .cmdReset (.slotCmd i),
             .beginCmd (.slotCmd i), .recordCommands i, .endCmd (.slotCmd i),
             .queueSubmit (.slotFence i), .presentImage env.present],
          fatal := false }

/-- phvk_engine.cpp phVkEngine::immediateSubmit: reset the dedicated
imm_fence and imm_command_buffer, begin recording, run the callback
(tagged cb), end recording, submit to the graphics queue with imm_fence,
then VK_CHECK-wait on imm_fence (bounded timeout, expiry aborts).  No
FrameData field is touched. -/
def immediateSubmit (gpu_done : Bool) (cb : Nat) (e : phVkEngine) : DrawOut :=
  let e3 : phVkEngine := { e with imm_fence := .pending, imm_command_buffer := some cb }
  let tr : List EngineEvent :=
    [.fenceReset .immFence, .cmdReset .immCmd, .beginCmd .immCmd,
     .recordImmediate, .endCmd .immCmd, .queueSubmit .immFence]
  match waitFence FenceState.pending gpu_done with
  | some f =>
      { engine := { e3 with imm_fence := f },
        trace := tr ++ [.fenceWait .immFence true], fatal := false }
  | none =>
      { engine := e3,
        trace := tr ++ [.fenceWait .immFence false, .abortProcess],
        fatal := true }

end phVkEngine

/-- Is this event one of the current slot's resource mutations that claim
C3 orders after the fence wait: delete-queue flush, frame descriptor pool
clear, fence reset, command-buffer reset? -/
def slotMutEvent (i : Nat) : EngineEvent → Bool
  | .deleteQueueFlush j => i == j
  | .clearFramePools j => i == j
  | .fenceReset f => f == .slotFence i
  | .cmdReset c => c == .slotCmd i
  | _ => false

/-- Scans a trace and checks that no mutation of slot i occurs before a
successful wait on slot i's render fence. -/
def fenceWaitPrecedes (i : Nat) : List EngineEvent → Bool
  | [] => true
  | ev :: rest =>
      if ev = .fenceWait (.slotFence i) true then true
      else if slotMutEvent i ev then false
      else fenceWaitPrecedes i rest

/-- phvk_pipelines.cpp load_shader_module: the uint32 word buffer read
from a byte stream (fileSize / 4 words, little-endian x86; a trailing
partial word is not part of the buffer). -/
def spirvWords : List Nat → List Nat
  | b0 :: b1 :: b2 :: b3 :: rest =>
      (b0 + 256 * (b1 + 256 * (b2 + 256 * b3))) :: spirvWords rest
  | _ => []

/-- Outcome of load_shader_module: the bool the C++ function returns, and
the shader module written through outShaderModule (carrying its SPIR-V
word blob), if one was created. -/
structure ShaderLoadResult where
  ok : Bool
  module : Option (List Nat)
deriving DecidableEq, Repr

/-- phvk_pipelines.cpp vkutil::load_shader_module: open the file (none
models a missing file: the open fails and the function returns false
without creating anything); read it into a uint32 buffer; create a shader
module from the buffer (create_ok models the vkCreateShaderModule result),
returning false on failure, true with the module on success. -/
def load_shader_module (file : Option (List Nat)) (create_ok : Bool) :
    ShaderLoadResult :=
  match file with
  | none => { ok := false, module := none }
  | some bytes =>
      if create_ok then { ok := true, module := some (spirvWords bytes) }
      else { ok := false, module := none }

/-- Observable outcome of the shader-loading portion of
initBackgroundPipelines. -/
structure BackgroundPipelinesRun where
  gradient_error_logged : Bool
  sky_error_logged : Bool
  aborted : Bool
  pipelines_created : Bool
deriving DecidableEq, Repr

/-- phvk_engine.cpp phVkEngine::initBackgroundPipelines, shader-loading
portion: load gradient_color.comp.spv and sky.comp.spv; when a load fails
the code only prints an error message and falls through — there is no
return or abort on that path — and pipeline creation proceeds
unconditionally afterwards. -/
def initBackgroundPipelines (gradient_file sky_file : Option (List Nat)) :
    BackgroundPipelinesRun :=
  let g := load_shader_module gradient_file true
  let s := load_shader_module sky_file true
  { gradient_error_logged := !g.ok,
    sky_error_logged := !s.ok,
    aborted := false,
    pipelines_created := true }

namespace DescriptorAllocatorGrowable

/-- Case analysis of getPool: either the back of ready_pools is popped and
returned with the device untouched, or ready_pools is empty and a
brand-new pool (the device's next handle) is created while sets_per_pool
grows by 1.5 clamped to 4092. -/
theorem getPool_cases (device : VulkanDevice) (s : DescriptorAllocatorGrowable) :
    (s.ready_pools.getLast? = some (getPool device s).pool ∧
      (getPool device s).state =
        { s with ready_pools := s.ready_pools.dropLast } ∧
      (getPool device s).device = device) ∨
    (s.ready_pools = [] ∧
      (getPool device s).pool = device.next_pool_id ∧
      (getPool device s).state =
        { s with sets_per_pool :=
            if 3 * s.sets_per_pool / 2 > 4092 then 4092
            else 3 * s.sets_per_pool / 2 } ∧
      (getPool device s).device =
        { device with
            next_pool_id := device.next_pool_id + 1,
            created := device.created ++
              [(device.next_pool_id, s.sets_per_pool,
                s.ratios.map (fun r => (r.type, r.ratio * s.sets_per_pool)))] }) := by
  cases h : s.ready_pools.getLast? with
  | some p =>
      left
      refine ⟨?_, ?_, ?_⟩ <;> simp [getPool, h]
  | none =>
      right
      refine ⟨List.getLast?_eq_none_iff.mp h, ?_, ?_, ?_⟩ <;>
        simp [getPool, h, createPool]

/-- Popping the back of a list puts it back: dropLast ++ [getLast]. -/
theorem dropLast_append_of_getLast? {l : List Nat} {p : Nat}
    (h : l.getLast? = some p) : l.dropLast ++ [p] = l :=
  List.dropLast_append_getLast? p (Option.mem_def.mpr h)

end DescriptorAllocatorGrowable

namespace DescriptorAllocatorGrowable

/-- init preserves the pool invariant: the single pool it creates is fresh. -/
theorem inv_init (device : VulkanDevice) (s : DescriptorAllocatorGrowable)
    (max_sets : Nat) (pool_ratios : List PoolSizeRatio) (h : Inv device s) :
    Inv (init device s max_sets pool_ratios).2 (init device s max_sets pool_ratios).1 := by
  obtain ⟨hnd, hlt⟩ := h
  constructor
  · have hmid :
        (s.ready_pools ++ device.next_pool_id :: s.full_pools).Nodup := by
      rw [List.nodup_middle]
      exact List.nodup_cons.mpr
        ⟨fun hm => absurd (hlt _ hm) (lt_irrefl _), hnd⟩
    simpa [init, createPool, List.append_assoc] using hmid
  · intro p hp
    simp only [init, createPool, List.mem_append, List.mem_singleton] at hp ⊢
    rcases hp with (hp | hp) | hp
    · have := hlt p (List.mem_append.mpr (.inl hp)); omega
    · omega
    · have := hlt p (List.mem_append.mpr (.inr hp)); omega

/-- clearPools preserves the pool invariant: the two lists are merged. -/
theorem inv_clearPools (device : VulkanDevice) (s : DescriptorAllocatorGrowable)
    (h : Inv device s) :
    Inv (clearPools device s).2 (clearPools device s).1 := by
  obtain ⟨hnd, hlt⟩ := h
  refine ⟨by simpa [clearPools] using hnd, ?_⟩
  intro p hp
  simp only [clearPools, List.append_nil] at hp
  exact hlt p hp

/-- destroyPools preserves the pool invariant: both lists empty. -/
theorem inv_destroyPools (device : VulkanDevice) (s : DescriptorAllocatorGrowable)
    (_h : Inv device s) :
    Inv (destroyPools device s).2 (destroyPools device s).1 := by
  refine ⟨by simp [destroyPools], ?_⟩
  intro p hp
  simp [destroyPools] at hp

end DescriptorAllocatorGrowable

/-- Rotating the singleton past the tail preserves Nodup. -/
theorem nodup_rotate {A F : List Nat} {p : Nat}
    (h : (A ++ [p] ++ F).Nodup) : (A ++ (F ++ [p])).Nodup := by
  refine List.Perm.nodup ?_ h
  rw [List.append_assoc]
  exact List.Perm.append_left A List.perm_append_comm

namespace DescriptorAllocatorGrowable

/-- The facts about one getPool call that the allocate proofs consume: the
full list is untouched, the handed-out pool together with the remaining
pools is duplicate-free and bounded by the device counter, and no pool of
the input state is lost. -/
theorem getPool_inv (device : VulkanDevice) (s : DescriptorAllocatorGrowable)
    (h : Inv device s) :
    (getPool device s).state.full_pools = s.full_pools ∧
    ((getPool device s).state.ready_pools ++ [(getPool device s).pool] ++
      (getPool device s).state.full_pools).Nodup ∧
    (∀ p ∈ (getPool device s).state.ready_pools ++ [(getPool device s).pool] ++
        (getPool device s).state.full_pools,
      p < (getPool device s).device.next_pool_id) ∧
    (∀ p ∈ s.ready_pools ++ s.full_pools,
      p ∈ (getPool device s).state.ready_pools ++ [(getPool device s).pool] ++
        (getPool device s).state.full_pools) := by
  obtain ⟨hnd, hlt⟩ := h
  rcases getPool_cases device s with ⟨h1p, h1s, h1d⟩ | ⟨h1e, h1p, h1s, h1d⟩
  · have hd : s.ready_pools.dropLast ++ [(getPool device s).pool] = s.ready_pools :=
      dropLast_append_of_getLast? h1p
    refine ⟨by rw [h1s], ?_, ?_, ?_⟩
    · rw [h1s]
      simpa [hd] using hnd
    · intro p hp
      rw [h1s] at hp
      simp only [hd] at hp
      rw [h1d]
      exact hlt p hp
    · intro p hp
      rw [h1s]
      simpa [hd] using hp
  · rw [h1e] at hnd hlt
    simp only [List.nil_append] at hnd hlt
    refine ⟨by rw [h1s], ?_, ?_, ?_⟩
    · rw [h1s, h1p]
      dsimp only
      rw [h1e]
      simp only [List.nil_append, List.singleton_append]
      exact List.nodup_cons.mpr
        ⟨fun hm => absurd (hlt _ hm) (lt_irrefl _), hnd⟩
    · intro p hp
      rw [h1s, h1p] at hp
      rw [h1d]
      dsimp only at hp ⊢
      rw [h1e] at hp
      simp only [List.nil_append, List.singleton_append, List.mem_cons] at hp
      rcases hp with rfl | hp
      · omega
      · exact Nat.lt_succ_of_lt (hlt p hp)
    · intro p hp
      rw [h1e] at hp
      simp only [List.nil_append] at hp
      rw [h1s, h1p]
      dsimp only
      rw [h1e]
      simp [hp]

end DescriptorAllocatorGrowable

namespace DescriptorAllocatorGrowable

/-- allocate preserves the pool invariant, for every oracle answer. -/
theorem inv_allocate (oracle : Nat → AllocResult) (device : VulkanDevice)
    (s : DescriptorAllocatorGrowable) (h : Inv device s) :
    Inv (allocate oracle device s).device (allocate oracle device s).state := by
  obtain ⟨hfull1, hnd1, hlt1, hpres1⟩ := getPool_inv device s h
  simp only [allocate]
  by_cases hf : oracle (getPool device s).pool = .outOfPoolMemory ∨
      oracle (getPool device s).pool = .fragmentedPool
  · rw [if_pos hf]
    have hinv2 : Inv (getPool device s).device
        { (getPool device s).state with
          full_pools := (getPool device s).state.full_pools ++ [(getPool device s).pool] } := by
      constructor
      · exact nodup_rotate hnd1
      · intro p hp
        apply hlt1
        simp only [List.mem_append, List.mem_singleton] at hp ⊢
        tauto
    obtain ⟨hfull2, hnd2, hlt2, hpres2⟩ := getPool_inv _ _ hinv2
    by_cases hsucc : oracle (getPool (getPool device s).device
        { (getPool device s).state with
          full_pools := (getPool device s).state.full_pools ++
            [(getPool device s).pool] }).pool = .success
    · rw [if_pos hsucc]
      exact ⟨hnd2, hlt2⟩
    · rw [if_neg hsucc]
      constructor
      · exact (List.Sublist.append (List.Sublist.refl _)
          (List.sublist_append_left _ _)).nodup (nodup_rotate hnd2)
      · intro p hp
        apply hlt2
        simp only [List.mem_append, List.mem_singleton] at hp ⊢
        tauto
  · rw [if_neg hf]
    exact ⟨hnd1, hlt1⟩

/-- Every reachable allocator state satisfies the pool invariant. -/
theorem reachable_inv (device : VulkanDevice) (s : DescriptorAllocatorGrowable)
    (h : Reachable device s) : Inv device s := by
  induction h with
  | boot n v => exact ⟨by simp, by intro p hp; simp at hp⟩
  | step_init device s max_sets pool_ratios _ ih => exact inv_init _ _ _ _ ih
  | step_allocate oracle device s _ _ ih => exact inv_allocate _ _ _ ih
  | step_clearPools device s _ ih => exact inv_clearPools _ _ ih
  | step_destroyPools device s _ ih => exact inv_destroyPools _ _ ih

end DescriptorAllocatorGrowable

/-- In a duplicate-free concatenation, the middle element avoids the tail. -/
theorem not_mem_right_of_nodup_mid {A F : List Nat} {p : Nat}
    (h : (A ++ [p] ++ F).Nodup) : p ∉ F := by
  intro hm
  rcases List.nodup_append.mp h with ⟨-, -, hd⟩
  exact hd (by simp) hm

namespace DescriptorAllocatorGrowable

/-- The state allocate retries from, written with explicit fields so it
matches the zeta-reduced unfolding of allocate: the first pool has been
pushed onto full_pools.  It satisfies the pool invariant. -/
theorem retry_state_inv (device : VulkanDevice) (s : DescriptorAllocatorGrowable)
    (h : Inv device s) :
    Inv (getPool device s).device
      { ratios := (getPool device s).state.ratios,
        full_pools := (getPool device s).state.full_pools ++ [(getPool device s).pool],
        ready_pools := (getPool device s).state.ready_pools,
        sets_per_pool := (getPool device s).state.sets_per_pool } := by
  obtain ⟨hfull1, hnd1, hlt1, hpres1⟩ := getPool_inv device s h
  constructor
  · exact nodup_rotate hnd1
  · intro p hp
    apply hlt1
    simp only [List.mem_append, List.mem_singleton] at hp ⊢
    tauto

end DescriptorAllocatorGrowable

/-- A fresh device with no pools: handle counter 0, empty logs. -/
def devBoot : VulkanDevice := ⟨0, [], [], []⟩

/-- A default-constructed allocator (sets_per_pool carried as 0). -/
def allocBoot : DescriptorAllocatorGrowable := ⟨[], [], [], 0⟩

/-- Device after init with 10 sets and one 1x ratio from scratch. -/
def dev10 : VulkanDevice :=
  (DescriptorAllocatorGrowable.init devBoot allocBoot 10 [⟨0, 1⟩]).2

/-- Allocator after init with 10 sets and one 1x ratio from scratch. -/
def st10 : DescriptorAllocatorGrowable :=
  (DescriptorAllocatorGrowable.init devBoot allocBoot 10 [⟨0, 1⟩]).1

/-- The freshly initialized allocator is a reachable state. -/
theorem reachable_st10 : DescriptorAllocatorGrowable.Reachable dev10 st10 :=
  DescriptorAllocatorGrowable.Reachable.step_init devBoot allocBoot 10 [⟨0, 1⟩]
    (DescriptorAllocatorGrowable.Reachable.boot 0 0)

/-- Oracle under which the first pool reports out-of-pool-memory and every
other pool succeeds. -/
def oracleRetry : Nat → AllocResult :=
  fun p => if p = 0 then .outOfPoolMemory else .success

/-- C1: from every reachable allocator state, every allocation attempt made
by allocate (first try and the single retry) is against a pool that is not
in full_pools at the moment of the attempt, and getPool hands out a pool
only by popping it off ready_pools or by creating a brand-new one. -/
theorem C1_no_allocation_from_full_pool (device : VulkanDevice)
    (s : DescriptorAllocatorGrowable)
    (h : DescriptorAllocatorGrowable.Reachable device s)
    (oracle : Nat → AllocResult) :
    (∀ a ∈ (DescriptorAllocatorGrowable.allocate oracle device s).attempts,
      a.1 ∉ a.2) ∧
    ((s.ready_pools.getLast? = some (DescriptorAllocatorGrowable.getPool device s).pool ∧
       (DescriptorAllocatorGrowable.getPool device s).state.ready_pools =
         s.ready_pools.dropLast) ∨
     (s.ready_pools = [] ∧
       (DescriptorAllocatorGrowable.getPool device s).pool ∉
         s.ready_pools ++ s.full_pools ∧
       (DescriptorAllocatorGrowable.getPool device s).pool = device.next_pool_id)) := by
  have hinv := DescriptorAllocatorGrowable.reachable_inv device s h
  obtain ⟨hfull1, hnd1, hlt1, hpres1⟩ :=
    DescriptorAllocatorGrowable.getPool_inv device s hinv
  have h1 : (DescriptorAllocatorGrowable.getPool device s).pool ∉
      (DescriptorAllocatorGrowable.getPool device s).state.full_pools :=
    not_mem_right_of_nodup_mid hnd1
  have hinv2 := DescriptorAllocatorGrowable.retry_state_inv device s hinv
  obtain ⟨hfull2, hnd2, hlt2, hpres2⟩ :=
    DescriptorAllocatorGrowable.getPool_inv _ _ hinv2
  have h2 := not_mem_right_of_nodup_mid hnd2
  constructor
  · simp only [DescriptorAllocatorGrowable.allocate]
    by_cases hf : oracle (DescriptorAllocatorGrowable.getPool device s).pool =
        .outOfPoolMemory ∨
        oracle (DescriptorAllocatorGrowable.getPool device s).pool = .fragmentedPool
    · rw [if_pos hf]
      by_cases hsucc : oracle (DescriptorAllocatorGrowable.getPool
          (DescriptorAllocatorGrowable.getPool device s).device
          { ratios := (DescriptorAllocatorGrowable.getPool device s).state.ratios,
            full_pools := (DescriptorAllocatorGrowable.getPool device s).state.full_pools ++
              [(DescriptorAllocatorGrowable.getPool device s).pool],
            ready_pools := (DescriptorAllocatorGrowable.getPool device s).state.ready_pools,
            sets_per_pool :=
              (DescriptorAllocatorGrowable.getPool device s).state.sets_per_pool }).pool =
          .success
      · rw [if_pos hsucc]
        intro a ha
        simp only [List.mem_cons, List.not_mem_nil, or_false] at ha
        rcases ha with rfl | rfl
        · exact h1
        · dsimp only
          exact h2
      · rw [if_neg hsucc]
        intro a ha
        simp only [List.mem_cons, List.not_mem_nil, or_false] at ha
        rcases ha with rfl | rfl
        · exact h1
        · dsimp only
          exact h2
    · rw [if_neg hf]
      intro a ha
      simp only [List.mem_cons, List.not_mem_nil, or_false] at ha
      rcases ha with rfl
      exact h1
  · rcases DescriptorAllocatorGrowable.getPool_cases device s with
      ⟨h1p, h1s, _⟩ | ⟨h1e, h1p, _, _⟩
    · left
      exact ⟨h1p, by rw [h1s]⟩
    · right
      refine ⟨h1e, ?_, h1p⟩
      intro hm
      have := hinv.2 _ hm
      rw [h1p] at this
      omega

/-- Witness for C1 at the freshly initialized allocator with an oracle that
fails the first pool: both attempted pools avoid the full list at attempt
time. -/
theorem C1_witness :
    DescriptorAllocatorGrowable.Reachable dev10 st10 ∧
    ((∀ a ∈ (DescriptorAllocatorGrowable.allocate oracleRetry dev10 st10).attempts,
       a.1 ∉ a.2) ∧
     ((st10.ready_pools.getLast? =
         some (DescriptorAllocatorGrowable.getPool dev10 st10).pool ∧
        (DescriptorAllocatorGrowable.getPool dev10 st10).state.ready_pools =
          st10.ready_pools.dropLast) ∨
      (st10.ready_pools = [] ∧
        (DescriptorAllocatorGrowable.getPool dev10 st10).pool ∉
          st10.ready_pools ++ st10.full_pools ∧
        (DescriptorAllocatorGrowable.getPool dev10 st10).pool =
          dev10.next_pool_id))) :=
  ⟨reachable_st10,
   C1_no_allocation_from_full_pool dev10 st10 reachable_st10 oracleRetry⟩

/-- Device after init with 2732 initial sets (target 4098) from scratch. -/
def devC2 : VulkanDevice :=
  (DescriptorAllocatorGrowable.init devBoot allocBoot 2732 []).2

/-- Allocator after init with 2732 initial sets (target 4098) from scratch. -/
def stC2 : DescriptorAllocatorGrowable :=
  (DescriptorAllocatorGrowable.init devBoot allocBoot 2732 []).1

/-- The allocator initialized with 2732 sets is a reachable state. -/
theorem reachable_stC2 : DescriptorAllocatorGrowable.Reachable devC2 stC2 :=
  DescriptorAllocatorGrowable.Reachable.step_init devBoot allocBoot 2732 []
    (DescriptorAllocatorGrowable.Reachable.boot 0 0)

/-- C2 counterexample: after init(2732) the pool target size is 4098, a
reachable value above the claimed cap of 4096 (init applies no clamp); the
next exhaustion-triggered pool creation creates a pool of 4098 sets and
then the target SHRINKS to 4092 (the cap in the code is 4092, not 4096),
so the target neither strictly increases nor avoids shrinking. -/
theorem C2_counterexample :
    DescriptorAllocatorGrowable.Reachable devC2 stC2 ∧
    4096 < stC2.sets_per_pool ∧
    DescriptorAllocatorGrowable.Reachable
      (DescriptorAllocatorGrowable.allocate oracleRetry devC2 stC2).device
      (DescriptorAllocatorGrowable.allocate oracleRetry devC2 stC2).state ∧
    (DescriptorAllocatorGrowable.allocate oracleRetry devC2 stC2).device.created =
      devC2.created ++ [(1, 4098, [])] ∧
    (DescriptorAllocatorGrowable.allocate oracleRetry devC2 stC2).state.sets_per_pool =
      4092 ∧
    (DescriptorAllocatorGrowable.allocate oracleRetry devC2 stC2).state.sets_per_pool <
      stC2.sets_per_pool :=
  ⟨reachable_stC2, by decide,
   DescriptorAllocatorGrowable.Reachable.step_allocate oracleRetry devC2 stC2
     reachable_stC2 (by decide),
   by decide, by decide, by decide⟩

/-- Allocator state with an empty ready list and target 10, for the C2
witness. -/
def stEmpty : DescriptorAllocatorGrowable := ⟨[], [], [], 10⟩

/-- C2 (amended): init sets the target to floor(initialSetCount * 1.5)
with no clamp; an exhaustion-triggered getPool (empty ready list) creates
a pool of exactly the current target size and then sets the target to
min(floor(target * 1.5), 4092); hence after such a creation the target is
at most 4092, it never shrinks provided the previous target was at most
4092, and it strictly increases exactly while 2 <= target < 4092. -/
theorem C2_pool_growth (device : VulkanDevice) (s : DescriptorAllocatorGrowable)
    (n : Nat) (r : List PoolSizeRatio) (hready : s.ready_pools = []) :
    (DescriptorAllocatorGrowable.init device s n r).1.sets_per_pool = 3 * n / 2 ∧
    (DescriptorAllocatorGrowable.getPool device s).pool = device.next_pool_id ∧
    (DescriptorAllocatorGrowable.getPool device s).device.created =
      device.created ++ [(device.next_pool_id, s.sets_per_pool,
        s.ratios.map (fun pr => (pr.type, pr.ratio * s.sets_per_pool)))] ∧
    (DescriptorAllocatorGrowable.getPool device s).state.sets_per_pool =
      min (3 * s.sets_per_pool / 2) 4092 ∧
    (DescriptorAllocatorGrowable.getPool device s).state.sets_per_pool ≤ 4092 ∧
    (s.sets_per_pool ≤ 4092 →
      s.sets_per_pool ≤ (DescriptorAllocatorGrowable.getPool device s).state.sets_per_pool) ∧
    (2 ≤ s.sets_per_pool → s.sets_per_pool < 4092 →
      s.sets_per_pool < (DescriptorAllocatorGrowable.getPool device s).state.sets_per_pool) := by
  rcases DescriptorAllocatorGrowable.getPool_cases device s with
    ⟨h1p, _, _⟩ | ⟨_, h1p, h1s, h1d⟩
  · rw [hready] at h1p
    simp at h1p
  · refine ⟨?_, h1p, ?_, ?_, ?_, ?_, ?_⟩
    · simp [DescriptorAllocatorGrowable.init, DescriptorAllocatorGrowable.createPool]
    · rw [h1d]
    · rw [h1s]
      dsimp only
      rw [Nat.min_def]
      split <;> split <;> omega
    · rw [h1s]
      dsimp only
      split <;> omega
    · intro hle
      rw [h1s]
      dsimp only
      split <;> omega
    · intro h2 hlt
      rw [h1s]
      dsimp only
      split <;> omega

/-- Witness for C2 (amended) at a state with an empty ready list and
target 10: the exhaustion-triggered creation makes a pool of 10 sets and
raises the target to 15. -/
theorem C2_pool_growth_witness :
    stEmpty.ready_pools = [] ∧
    ((DescriptorAllocatorGrowable.init devBoot stEmpty 10 []).1.sets_per_pool =
        3 * 10 / 2 ∧
     (DescriptorAllocatorGrowable.getPool devBoot stEmpty).pool =
        devBoot.next_pool_id ∧
     (DescriptorAllocatorGrowable.getPool devBoot stEmpty).device.created =
        devBoot.created ++ [(devBoot.next_pool_id, stEmpty.sets_per_pool,
          stEmpty.ratios.map (fun pr => (pr.type, pr.ratio * stEmpty.sets_per_pool)))] ∧
     (DescriptorAllocatorGrowable.getPool devBoot stEmpty).state.sets_per_pool =
        min (3 * stEmpty.sets_per_pool / 2) 4092 ∧
     (DescriptorAllocatorGrowable.getPool devBoot stEmpty).state.sets_per_pool ≤ 4092 ∧
     (stEmpty.sets_per_pool ≤ 4092 →
        stEmpty.sets_per_pool ≤
          (DescriptorAllocatorGrowable.getPool devBoot stEmpty).state.sets_per_pool) ∧
     (2 ≤ stEmpty.sets_per_pool → stEmpty.sets_per_pool < 4092 →
        stEmpty.sets_per_pool <
          (DescriptorAllocatorGrowable.getPool devBoot stEmpty).state.sets_per_pool)) :=
  ⟨rfl, C2_pool_growth devBoot stEmpty 10 [] rfl⟩

namespace DescriptorAllocatorGrowable

/-- getPool never touches full_pools. -/
theorem getPool_full_unchanged (device : VulkanDevice)
    (s : DescriptorAllocatorGrowable) :
    (getPool device s).state.full_pools = s.full_pools := by
  rcases getPool_cases device s with ⟨_, h1s, _⟩ | ⟨_, _, h1s, _⟩ <;> rw [h1s]

/-- getPool loses no pool: every pool of the input state is either still
held by the output state or is the pool handed out. -/
theorem getPool_preserves_pools (device : VulkanDevice)
    (s : DescriptorAllocatorGrowable) :
    ∀ p ∈ s.ready_pools ++ s.full_pools,
      p ∈ (getPool device s).state.ready_pools ++ [(getPool device s).pool] ++
        (getPool device s).state.full_pools := by
  intro p hp
  rcases getPool_cases device s with ⟨h1p, h1s, _⟩ | ⟨h1e, h1p, h1s, _⟩
  · have hd := dropLast_append_of_getLast? h1p
    rw [h1s]
    dsimp only
    rw [hd]
    exact hp
  · rw [h1e] at hp
    rw [h1s]
    dsimp only
    rw [h1e]
    simp only [List.nil_append] at hp ⊢
    simp [hp]

/-- The intermediate state allocate retries from: the first pool has been
pushed onto full_pools (the s2 of allocate, spelled with explicit fields
so it matches the zeta-reduced unfolding of allocate). -/
def retryState (device : VulkanDevice) (s : DescriptorAllocatorGrowable) :
    DescriptorAllocatorGrowable :=
  { ratios := (getPool device s).state.ratios,
    full_pools := (getPool device s).state.full_pools ++ [(getPool device s).pool],
    ready_pools := (getPool device s).state.ready_pools,
    sets_per_pool := (getPool device s).state.sets_per_pool }

end DescriptorAllocatorGrowable

/-- C4: allocate makes at most two attempts; when the first attempt fails
with out-of-pool-memory or a fragmented pool, the exhausted pool is moved
to full_pools and the allocation is retried exactly once from a pool
obtained by the same get-or-create logic, a failed retry being fatal; on
success (either attempt) the pool that served is pushed back onto
ready_pools, and no pool held by the allocator is dropped. -/
theorem C4_allocate_retry (oracle : Nat → AllocResult) (device : VulkanDevice)
    (s : DescriptorAllocatorGrowable) :
    (DescriptorAllocatorGrowable.allocate oracle device s).attempts.length ≤ 2 ∧
    (¬(oracle (DescriptorAllocatorGrowable.getPool device s).pool = .outOfPoolMemory ∨
        oracle (DescriptorAllocatorGrowable.getPool device s).pool = .fragmentedPool) →
      (DescriptorAllocatorGrowable.allocate oracle device s).attempts.length = 1 ∧
      (DescriptorAllocatorGrowable.allocate oracle device s).fatal = false ∧
      (DescriptorAllocatorGrowable.allocate oracle device s).served =
        (DescriptorAllocatorGrowable.getPool device s).pool) ∧
    ((oracle (DescriptorAllocatorGrowable.getPool device s).pool = .outOfPoolMemory ∨
        oracle (DescriptorAllocatorGrowable.getPool device s).pool = .fragmentedPool) →
      (DescriptorAllocatorGrowable.allocate oracle device s).attempts.length = 2 ∧
      (DescriptorAllocatorGrowable.getPool device s).pool ∈
        (DescriptorAllocatorGrowable.allocate oracle device s).state.full_pools ∧
      (oracle (DescriptorAllocatorGrowable.getPool
          (DescriptorAllocatorGrowable.getPool device s).device
          (DescriptorAllocatorGrowable.retryState device s)).pool = .success →
        (DescriptorAllocatorGrowable.allocate oracle device s).fatal = false ∧
        (DescriptorAllocatorGrowable.allocate oracle device s).served =
          (DescriptorAllocatorGrowable.getPool
            (DescriptorAllocatorGrowable.getPool device s).device
            (DescriptorAllocatorGrowable.retryState device s)).pool) ∧
      (¬ oracle (DescriptorAllocatorGrowable.getPool
          (DescriptorAllocatorGrowable.getPool device s).device
          (DescriptorAllocatorGrowable.retryState device s)).pool = .success →
        (DescriptorAllocatorGrowable.allocate oracle device s).fatal = true)) ∧
    ((DescriptorAllocatorGrowable.allocate oracle device s).fatal = false →
      (DescriptorAllocatorGrowable.allocate oracle device s).served ∈
        (DescriptorAllocatorGrowable.allocate oracle device s).state.ready_pools) ∧
    ((DescriptorAllocatorGrowable.allocate oracle device s).fatal = false →
      ∀ p ∈ s.ready_pools ++ s.full_pools,
        p ∈ (DescriptorAllocatorGrowable.allocate oracle device s).state.ready_pools ++
          (DescriptorAllocatorGrowable.allocate oracle device s).state.full_pools) := by
  have hstage1 := DescriptorAllocatorGrowable.getPool_preserves_pools device s
  have hstage2 := DescriptorAllocatorGrowable.getPool_preserves_pools
    (DescriptorAllocatorGrowable.getPool device s).device
    (DescriptorAllocatorGrowable.retryState device s)
  have hfull2 := DescriptorAllocatorGrowable.getPool_full_unchanged
    (DescriptorAllocatorGrowable.getPool device s).device
    (DescriptorAllocatorGrowable.retryState device s)
  simp only [DescriptorAllocatorGrowable.retryState] at hstage2 hfull2
  simp only [DescriptorAllocatorGrowable.allocate, DescriptorAllocatorGrowable.retryState]
  by_cases hf : oracle (DescriptorAllocatorGrowable.getPool device s).pool =
      .outOfPoolMemory ∨
      oracle (DescriptorAllocatorGrowable.getPool device s).pool = .fragmentedPool
  · rw [if_pos hf]
    by_cases hsucc : oracle (DescriptorAllocatorGrowable.getPool
        (DescriptorAllocatorGrowable.getPool device s).device
        { ratios := (DescriptorAllocatorGrowable.getPool device s).state.ratios,
          full_pools := (DescriptorAllocatorGrowable.getPool device s).state.full_pools ++
            [(DescriptorAllocatorGrowable.getPool device s).pool],
          ready_pools := (DescriptorAllocatorGrowable.getPool device s).state.ready_pools,
          sets_per_pool :=
            (DescriptorAllocatorGrowable.getPool device s).state.sets_per_pool }).pool =
        .success
    · rw [if_pos hsucc]
      refine ⟨by simp, fun hn => absurd hf hn, ?_, ?_, ?_⟩
      · intro _
        refine ⟨by simp, ?_, ?_, ?_⟩
        · dsimp only
          rw [hfull2]
          simp
        · intro _
          exact ⟨rfl, rfl⟩
        · intro hn
          exact absurd hsucc hn
      · intro _
        dsimp only
        simp
      · intro _ p hp
        have h1 := hstage1 p hp
        have h2 : p ∈ (DescriptorAllocatorGrowable.getPool device s).state.ready_pools ++
            ((DescriptorAllocatorGrowable.getPool device s).state.full_pools ++
              [(DescriptorAllocatorGrowable.getPool device s).pool]) := by
          simp only [List.mem_append, List.mem_singleton] at h1 ⊢
          tauto
        have h3 := hstage2 p h2
        dsimp only
        simp only [List.mem_append, List.mem_singleton] at h3 ⊢
        tauto
    · rw [if_neg hsucc]
      refine ⟨by simp, fun hn => absurd hf hn, ?_, ?_, ?_⟩
      · intro _
        refine ⟨by simp, ?_, ?_, ?_⟩
        · dsimp only
          rw [hfull2]
          simp
        · intro hs
          exact absurd hs hsucc
        · intro _
          rfl
      · intro hfatal
        simp at hfatal
      · intro hfatal
        simp at hfatal
  · rw [if_neg hf]
    refine ⟨by simp, ?_, fun hy => absurd hy hf, ?_, ?_⟩
    · intro _
      exact ⟨by simp, rfl, rfl⟩
    · intro _
      dsimp only
      simp
    · intro _ p hp
      have h1 := hstage1 p hp
      dsimp only
      simp only [List.mem_append, List.mem_singleton] at h1 ⊢
      tauto

/-- Witness for C4 at the freshly initialized allocator with an oracle that
fails the first pool and succeeds on the retry. -/
theorem C4_witness :
    ((DescriptorAllocatorGrowable.allocate oracleRetry dev10 st10).fatal = false →
      (DescriptorAllocatorGrowable.allocate oracleRetry dev10 st10).served ∈
        (DescriptorAllocatorGrowable.allocate oracleRetry dev10 st10).state.ready_pools) ∧
    ((oracleRetry (DescriptorAllocatorGrowable.getPool dev10 st10).pool =
        .outOfPoolMemory ∨
      oracleRetry (DescriptorAllocatorGrowable.getPool dev10 st10).pool =
        .fragmentedPool) →
      (DescriptorAllocatorGrowable.allocate oracleRetry dev10 st10).attempts.length = 2 ∧
      (DescriptorAllocatorGrowable.getPool dev10 st10).pool ∈
        (DescriptorAllocatorGrowable.allocate oracleRetry dev10 st10).state.full_pools ∧
      (oracleRetry (DescriptorAllocatorGrowable.getPool
          (DescriptorAllocatorGrowable.getPool dev10 st10).device
          (DescriptorAllocatorGrowable.retryState dev10 st10)).pool = .success →
        (DescriptorAllocatorGrowable.allocate oracleRetry dev10 st10).fatal = false ∧
        (DescriptorAllocatorGrowable.allocate oracleRetry dev10 st10).served =
          (DescriptorAllocatorGrowable.getPool
            (DescriptorAllocatorGrowable.getPool dev10 st10).device
            (DescriptorAllocatorGrowable.retryState dev10 st10)).pool) ∧
      (¬ oracleRetry (DescriptorAllocatorGrowable.getPool
          (DescriptorAllocatorGrowable.getPool dev10 st10).device
          (DescriptorAllocatorGrowable.retryState dev10 st10)).pool = .success →
        (DescriptorAllocatorGrowable.allocate oracleRetry dev10 st10).fatal = true)) :=
  ⟨(C4_allocate_retry oracleRetry dev10 st10).2.2.2.1,
   (C4_allocate_retry oracleRetry dev10 st10).2.2.1⟩

/-- C8: after clearPools the full list is empty, every previously-full pool
has been reset and now sits in ready_pools, every previously-ready pool
has been reset in place and stays in ready_pools, and no pool is created
or destroyed by clearPools. -/
theorem C8_clearPools_resets_and_merges (device : VulkanDevice)
    (s : DescriptorAllocatorGrowable) :
    (DescriptorAllocatorGrowable.clearPools device s).1.full_pools = [] ∧
    (DescriptorAllocatorGrowable.clearPools device s).1.ready_pools =
      s.ready_pools ++ s.full_pools ∧
    (∀ p ∈ s.full_pools,
      p ∈ (DescriptorAllocatorGrowable.clearPools device s).1.ready_pools) ∧
    (∀ p ∈ s.ready_pools,
      p ∈ (DescriptorAllocatorGrowable.clearPools device s).1.ready_pools) ∧
    (DescriptorAllocatorGrowable.clearPools device s).2.resets =
      device.resets ++ s.ready_pools ++ s.full_pools ∧
    (DescriptorAllocatorGrowable.clearPools device s).2.destroyed =
      device.destroyed ∧
    (DescriptorAllocatorGrowable.clearPools device s).2.created = device.created ∧
    (DescriptorAllocatorGrowable.clearPools device s).1.sets_per_pool =
      s.sets_per_pool ∧
    (DescriptorAllocatorGrowable.clearPools device s).1.ratios = s.ratios := by
  refine ⟨rfl, rfl, ?_, ?_, rfl, rfl, rfl, rfl, rfl⟩ <;> intro p hp <;>
    simp [DescriptorAllocatorGrowable.clearPools, hp]

/-- Allocator state with one ready pool and two full pools, for the C8
witness. -/
def stFull : DescriptorAllocatorGrowable := ⟨[], [3, 4], [5], 7⟩

/-- Witness for C8 at a state with full pools 3 and 4 and ready pool 5:
after clearPools all three sit in ready_pools, the full list is empty, and
all three were reset. -/
theorem C8_witness :
    (DescriptorAllocatorGrowable.clearPools devBoot stFull).1.full_pools = [] ∧
    (DescriptorAllocatorGrowable.clearPools devBoot stFull).1.ready_pools =
      stFull.ready_pools ++ stFull.full_pools ∧
    (∀ p ∈ stFull.full_pools,
      p ∈ (DescriptorAllocatorGrowable.clearPools devBoot stFull).1.ready_pools) ∧
    (∀ p ∈ stFull.ready_pools,
      p ∈ (DescriptorAllocatorGrowable.clearPools devBoot stFull).1.ready_pools) ∧
    (DescriptorAllocatorGrowable.clearPools devBoot stFull).2.resets =
      devBoot.resets ++ stFull.ready_pools ++ stFull.full_pools ∧
    (DescriptorAllocatorGrowable.clearPools devBoot stFull).2.destroyed =
      devBoot.destroyed ∧
    (DescriptorAllocatorGrowable.clearPools devBoot stFull).2.created =
      devBoot.created ∧
    (DescriptorAllocatorGrowable.clearPools devBoot stFull).1.sets_per_pool =
      stFull.sets_per_pool ∧
    (DescriptorAllocatorGrowable.clearPools devBoot stFull).1.ratios =
      stFull.ratios :=
  C8_clearPools_resets_and_merges devBoot stFull

/-- Folding pushFunction over a list of actions appends them in order. -/
theorem DeleteQueue.foldl_pushFunction {α : Type} (xs : List α) (q : DeleteQueue α) :
    (xs.foldl DeleteQueue.pushFunction q).fifo = q.fifo ++ xs := by
  induction xs generalizing q with
  | nil => simp
  | cons x xs ih => simp [DeleteQueue.pushFunction, ih]

/-- C5: flushing a DeleteQueue built by pushing a sequence of actions
invokes them in exactly the reverse of push order and leaves the queue
empty; in particular pushing A then B and flushing invokes B before A. -/
theorem C5_flush_reverse (α : Type) (actions : List α) :
    (actions.foldl DeleteQueue.pushFunction DeleteQueue.empty).flush.1 =
      actions.reverse ∧
    (actions.foldl DeleteQueue.pushFunction DeleteQueue.empty).flush.2.fifo = [] ∧
    (∀ a b : α,
      ((DeleteQueue.empty.pushFunction a).pushFunction b).flush.1 = [b, a]) := by
  refine ⟨?_, rfl, ?_⟩
  · simp [DeleteQueue.flush, DeleteQueue.foldl_pushFunction, DeleteQueue.empty]
  · intro a b
    simp [DeleteQueue.flush, DeleteQueue.pushFunction, DeleteQueue.empty]

/-- getD after set at the same in-bounds index returns the new element. -/
theorem getD_set_self (l : List FrameData) (i : Nat) (x d : FrameData)
    (h : i < l.length) : (l.set i x).getD i d = x := by
  simp [List.getD, List.getElem?_set_eq_of_lt x h]

/-- A successful waitFence always observes the fence signaled. -/
theorem waitFence_some {f : FenceState} {g : Bool} {x : FenceState}
    (h : waitFence f g = some x) : x = FenceState.signaled := by
  cases f with
  | signaled => exact (Option.some.inj h).symm
  | unsignaled => simp [waitFence] at h
  | pending =>
      cases g with
      | true => exact (Option.some.inj h).symm
      | false => simp [waitFence] at h

/-- An engine right after initialization: frame 0, both slot fences
created signaled (VK_FENCE_CREATE_SIGNALED_BIT in initSyncStructures),
command buffers empty, immediate fence signaled. -/
def engine0 : phVkEngine :=
  ⟨0, [⟨.signaled, none⟩, ⟨.signaled, none⟩], false, .signaled, none⟩

/-- A tick environment where everything succeeds. -/
def envOk : phVkEngine.DrawEnv := ⟨true, .success, .success⟩

/-- A tick environment where image acquisition reports out-of-date. -/
def envOutOfDate : phVkEngine.DrawEnv := ⟨true, .outOfDate, .success⟩

/-- A tick environment where image acquisition reports suboptimal. -/
def envSuboptimal : phVkEngine.DrawEnv := ⟨true, .suboptimal, .success⟩

namespace phVkEngine

/-- Characterization of draw when the fence wait times out: VK_CHECK
aborts; nothing else happens. -/
theorem draw_timeout (env : DrawEnv) (e : phVkEngine)
    (hw : waitFence (e.frames.getD (e.frame_number % FRAME_OVERLAP)
      ⟨.unsignaled, none⟩).render_fence env.gpu_done = none) :
    draw env e =
      { engine := e,
        trace := [.updateScene,
          .fenceWait (.slotFence (e.frame_number % FRAME_OVERLAP)) false,
          .abortProcess],
        fatal := true } := by
  simp only [draw]
  rw [hw]

/-- Characterization of draw when the wait succeeds and acquisition
reports out-of-date: the resize flag is set and the tick stops after the
acquire, leaving the slot's command buffer untouched and its fence as the
wait observed it. -/
theorem draw_out_of_date (env : DrawEnv) (e : phVkEngine) (f1 : FenceState)
    (hw : waitFence (e.frames.getD (e.frame_number % FRAME_OVERLAP)
      ⟨.unsignaled, none⟩).render_fence env.gpu_done = some f1)
    (ha : env.acquire = .outOfDate) :
    draw env e =
      { engine :=
          { frame_number := e.frame_number,
            frames := e.frames.set (e.frame_number % FRAME_OVERLAP)
              { render_fence := f1,
                command_buffer := (e.frames.getD (e.frame_number % FRAME_OVERLAP)
                  ⟨.unsignaled, none⟩).command_buffer },
            resize_requested := true,
            imm_fence := e.imm_fence,
            imm_command_buffer := e.imm_command_buffer },
        trace := [.updateScene,
          .fenceWait (.slotFence (e.frame_number % FRAME_OVERLAP)) true,
          .deleteQueueFlush (e.frame_number % FRAME_OVERLAP),
          .clearFramePools (e.frame_number % FRAME_OVERLAP),
          .deleteQueueFlush (e.frame_number % FRAME_OVERLAP),
          .acquireImage env.acquire],
        fatal := false } := by
  simp only [draw]
  rw [hw]
  dsimp only
  rw [if_pos ha]

/-- Characterization of draw when the wait succeeds and acquisition does
not report out-of-date (success or suboptimal): the full tick runs, the
slot's fence is handed to the submission (pending), the command buffer is
re-recorded, and frame_number advances. -/
theorem draw_continue (env : DrawEnv) (e : phVkEngine) (f1 : FenceState)
    (hw : waitFence (e.frames.getD (e.frame_number % FRAME_OVERLAP)
      ⟨.unsignaled, none⟩).render_fence env.gpu_done = some f1)
    (ha : ¬ env.acquire = .outOfDate) :
    draw env e =
      { engine :=
          { frame_number := e.frame_number + 1,
            frames := e.frames.set (e.frame_number % FRAME_OVERLAP)
              { render_fence := .pending, command_buffer := some e.frame_number },
            resize_requested :=
              if env.present = .outOfDate then true else e.resize_requested,
            imm_fence := e.imm_fence,
            imm_command_buffer := e.imm_command_buffer },
        trace := [.updateScene,
          .fenceWait (.slotFence (e.frame_number % FRAME_OVERLAP)) true,
          .deleteQueueFlush (e.frame_number % FRAME_OVERLAP),
          .clearFramePools (e.frame_number % FRAME_OVERLAP),
          .deleteQueueFlush (e.frame_number % FRAME_OVERLAP),
          .acquireImage env.acquire,
          .fenceReset (.slotFence (e.frame_number % FRAME_OVERLAP)),
          .cmdReset (.slotCmd (e.frame_number % FRAME_OVERLAP)),
          .beginCmd (.slotCmd (e.frame_number % FRAME_OVERLAP)),
          .recordCommands (e.frame_number % FRAME_OVERLAP),
          .endCmd (.slotCmd (e.frame_number % FRAME_OVERLAP)),
          .queueSubmit (.slotFence (e.frame_number % FRAME_OVERLAP)),
          .presentImage env.present],
        fatal := false } := by
  simp only [draw]
  rw [hw]
  dsimp only
  rw [if_neg ha]
  simp [List.set_set]

end phVkEngine

/-- C3: on every draw tick, no flush of the current slot's delete queue,
clear of its frame descriptor pools, reset of its render fence, or reset
of its command buffer occurs before the wait on that slot's render fence
completes successfully; and if the bounded wait times out, the tick is
fatal and none of those operations happen at all. -/
theorem C3_fence_wait_before_reuse (env : phVkEngine.DrawEnv) (e : phVkEngine) :
    fenceWaitPrecedes (e.frame_number % FRAME_OVERLAP)
      (phVkEngine.draw env e).trace = true ∧
    (waitFence (e.frames.getD (e.frame_number % FRAME_OVERLAP)
        ⟨.unsignaled, none⟩).render_fence env.gpu_done = none →
      (phVkEngine.draw env e).fatal = true ∧
      ∀ ev ∈ (phVkEngine.draw env e).trace,
        slotMutEvent (e.frame_number % FRAME_OVERLAP) ev = false) := by
  cases hw : waitFence (e.frames.getD (e.frame_number % FRAME_OVERLAP)
      ⟨.unsignaled, none⟩).render_fence env.gpu_done with
  | none =>
      rw [phVkEngine.draw_timeout env e hw]
      refine ⟨?_, fun _ => ⟨rfl, ?_⟩⟩
      · simp [fenceWaitPrecedes, slotMutEvent]
      · intro ev hev
        simp only [List.mem_cons, List.not_mem_nil, or_false] at hev
        rcases hev with rfl | rfl | rfl <;> simp [slotMutEvent]
  | some f1 =>
      refine ⟨?_, ?_⟩
      · by_cases ha : env.acquire = .outOfDate
        · rw [phVkEngine.draw_out_of_date env e f1 hw ha]
          simp [fenceWaitPrecedes, slotMutEvent]
        · rw [phVkEngine.draw_continue env e f1 hw ha]
          simp [fenceWaitPrecedes, slotMutEvent]
      · intro hcontra
        simp at hcontra

/-- Witness for C3 at a freshly initialized engine and a fully successful
tick environment. -/
theorem C3_witness :
    fenceWaitPrecedes (engine0.frame_number % FRAME_OVERLAP)
      (phVkEngine.draw envOk engine0).trace = true ∧
    (waitFence (engine0.frames.getD (engine0.frame_number % FRAME_OVERLAP)
        ⟨.unsignaled, none⟩).render_fence envOk.gpu_done = none →
      (phVkEngine.draw envOk engine0).fatal = true ∧
      ∀ ev ∈ (phVkEngine.draw envOk engine0).trace,
        slotMutEvent (engine0.frame_number % FRAME_OVERLAP) ev = false) :=
  C3_fence_wait_before_reuse envOk engine0

/-- C6 counterexample: when image acquisition reports suboptimal (rather
than out-of-date), the code does NOT set the resize flag and does NOT
abort the tick: the frame is submitted, presented, and frame_number
advances.  Only VK_ERROR_OUT_OF_DATE_KHR is checked after
vkAcquireNextImageKHR. -/
theorem C6_counterexample :
    (phVkEngine.draw envSuboptimal engine0).engine.resize_requested = false ∧
    (phVkEngine.draw envSuboptimal engine0).engine.frame_number =
      engine0.frame_number + 1 ∧
    EngineEvent.queueSubmit (.slotFence 0) ∈
      (phVkEngine.draw envSuboptimal engine0).trace ∧
    EngineEvent.presentImage .success ∈
      (phVkEngine.draw envSuboptimal engine0).trace ∧
    (phVkEngine.draw envSuboptimal engine0).fatal = false := by
  decide

/-- C6 (amended): if acquisition reports out-of-date (and only then — a
suboptimal acquire continues the tick unchanged), the resize flag is set
and the rest of the tick is aborted: frame_number is unchanged and no
submit or present happens; a suboptimal acquire instead runs the full
tick and advances frame_number. -/
theorem C6_out_of_date_aborts_tick (env : phVkEngine.DrawEnv) (e : phVkEngine)
    (hw : waitFence (e.frames.getD (e.frame_number % FRAME_OVERLAP)
      ⟨.unsignaled, none⟩).render_fence env.gpu_done ≠ none) :
    (env.acquire = .outOfDate →
      (phVkEngine.draw env e).engine.resize_requested = true ∧
      (phVkEngine.draw env e).engine.frame_number = e.frame_number ∧
      (phVkEngine.draw env e).fatal = false ∧
      (∀ f, EngineEvent.queueSubmit f ∉ (phVkEngine.draw env e).trace) ∧
      (∀ r, EngineEvent.presentImage r ∉ (phVkEngine.draw env e).trace)) ∧
    (env.acquire = .suboptimal →
      (phVkEngine.draw env e).engine.frame_number = e.frame_number + 1 ∧
      (phVkEngine.draw env e).engine.resize_requested =
        (if env.present = .outOfDate then true else e.resize_requested) ∧
      EngineEvent.queueSubmit (.slotFence (e.frame_number % FRAME_OVERLAP)) ∈
        (phVkEngine.draw env e).trace ∧
      EngineEvent.presentImage env.present ∈ (phVkEngine.draw env e).trace) := by
  cases hwc : waitFence (e.frames.getD (e.frame_number % FRAME_OVERLAP)
      ⟨.unsignaled, none⟩).render_fence env.gpu_done with
  | none => exact absurd hwc hw
  | some f1 =>
      constructor
      · intro ha
        rw [phVkEngine.draw_out_of_date env e f1 hwc ha]
        refine ⟨rfl, rfl, rfl, ?_, ?_⟩
        · intro f
          simp
        · intro r
          simp
      · intro ha
        rw [phVkEngine.draw_continue env e f1 hwc (by rw [ha]; simp)]
        refine ⟨rfl, rfl, by simp, by simp⟩

/-- Witness for C6 (amended) at a freshly initialized engine whose
acquisition reports out-of-date. -/
theorem C6_witness :
    waitFence (engine0.frames.getD (engine0.frame_number % FRAME_OVERLAP)
      ⟨.unsignaled, none⟩).render_fence envOutOfDate.gpu_done ≠ none ∧
    ((envOutOfDate.acquire = .outOfDate →
      (phVkEngine.draw envOutOfDate engine0).engine.resize_requested = true ∧
      (phVkEngine.draw envOutOfDate engine0).engine.frame_number =
        engine0.frame_number ∧
      (phVkEngine.draw envOutOfDate engine0).fatal = false ∧
      (∀ f, EngineEvent.queueSubmit f ∉ (phVkEngine.draw envOutOfDate engine0).trace) ∧
      (∀ r, EngineEvent.presentImage r ∉
        (phVkEngine.draw envOutOfDate engine0).trace)) ∧
    (envOutOfDate.acquire = .suboptimal →
      (phVkEngine.draw envOutOfDate engine0).engine.frame_number =
        engine0.frame_number + 1 ∧
      (phVkEngine.draw envOutOfDate engine0).engine.resize_requested =
        (if envOutOfDate.present = .outOfDate then true
         else engine0.resize_requested) ∧
      EngineEvent.queueSubmit (.slotFence (engine0.frame_number % FRAME_OVERLAP)) ∈
        (phVkEngine.draw envOutOfDate engine0).trace ∧
      EngineEvent.presentImage envOutOfDate.present ∈
        (phVkEngine.draw envOutOfDate engine0).trace)) :=
  ⟨by decide, C6_out_of_date_aborts_tick envOutOfDate engine0 (by decide)⟩

/-- C10: when acquisition reports out-of-date, draw returns before the
slot's fence or command buffer is reset: the tick is not fatal, the slot's
render fence is left in the signaled state the wait observed, its recorded
command buffer is unchanged, frame_number does not advance, and a
subsequent wait on that slot's fence succeeds immediately for every GPU
outcome. -/
theorem C10_out_of_date_leaves_slot_intact (env : phVkEngine.DrawEnv)
    (e : phVkEngine) (hlen : e.frames.length = FRAME_OVERLAP)
    (ha : env.acquire = .outOfDate)
    (hw : waitFence (e.frames.getD (e.frame_number % FRAME_OVERLAP)
      ⟨.unsignaled, none⟩).render_fence env.gpu_done ≠ none) :
    (phVkEngine.draw env e).fatal = false ∧
    ((phVkEngine.draw env e).engine.frames.getD (e.frame_number % FRAME_OVERLAP)
      ⟨.unsignaled, none⟩).render_fence = .signaled ∧
    ((phVkEngine.draw env e).engine.frames.getD (e.frame_number % FRAME_OVERLAP)
      ⟨.unsignaled, none⟩).command_buffer =
      (e.frames.getD (e.frame_number % FRAME_OVERLAP)
        ⟨.unsignaled, none⟩).command_buffer ∧
    (phVkEngine.draw env e).engine.frame_number = e.frame_number ∧
    EngineEvent.fenceReset (.slotFence (e.frame_number % FRAME_OVERLAP)) ∉
      (phVkEngine.draw env e).trace ∧
    EngineEvent.cmdReset (.slotCmd (e.frame_number % FRAME_OVERLAP)) ∉
      (phVkEngine.draw env e).trace ∧
    (∀ g : Bool, waitFence ((phVkEngine.draw env e).engine.frames.getD
        (e.frame_number % FRAME_OVERLAP) ⟨.unsignaled, none⟩).render_fence g =
      some .signaled) := by
  cases hwc : waitFence (e.frames.getD (e.frame_number % FRAME_OVERLAP)
      ⟨.unsignaled, none⟩).render_fence env.gpu_done with
  | none => exact absurd hwc hw
  | some f1 =>
      have hf1 : f1 = FenceState.signaled := waitFence_some hwc
      subst hf1
      have hil : e.frame_number % FRAME_OVERLAP < e.frames.length := by
        rw [hlen]
        exact Nat.mod_lt _ (by decide)
      rw [phVkEngine.draw_out_of_date env e _ hwc ha]
      refine ⟨rfl, ?_, ?_, rfl, by simp, by simp, ?_⟩
      · rw [getD_set_self _ _ _ _ hil]
      · rw [getD_set_self _ _ _ _ hil]
      · intro g
        rw [getD_set_self _ _ _ _ hil]
        rfl

/-- Witness for C10 at a freshly initialized engine and an out-of-date
acquisition. -/
theorem C10_witness :
    engine0.frames.length = FRAME_OVERLAP ∧
    envOutOfDate.acquire = .outOfDate ∧
    ((phVkEngine.draw envOutOfDate engine0).fatal = false ∧
     ((phVkEngine.draw envOutOfDate engine0).engine.frames.getD
        (engine0.frame_number % FRAME_OVERLAP) ⟨.unsignaled, none⟩).render_fence =
       .signaled ∧
     ((phVkEngine.draw envOutOfDate engine0).engine.frames.getD
        (engine0.frame_number % FRAME_OVERLAP) ⟨.unsignaled, none⟩).command_buffer =
       (engine0.frames.getD (engine0.frame_number % FRAME_OVERLAP)
         ⟨.unsignaled, none⟩).command_buffer ∧
     (phVkEngine.draw envOutOfDate engine0).engine.frame_number =
       engine0.frame_number ∧
     EngineEvent.fenceReset (.slotFence (engine0.frame_number % FRAME_OVERLAP)) ∉
       (phVkEngine.draw envOutOfDate engine0).trace ∧
     EngineEvent.cmdReset (.slotCmd (engine0.frame_number % FRAME_OVERLAP)) ∉
       (phVkEngine.draw envOutOfDate engine0).trace ∧
     (∀ g : Bool, waitFence ((phVkEngine.draw envOutOfDate engine0).engine.frames.getD
         (engine0.frame_number % FRAME_OVERLAP) ⟨.unsignaled, none⟩).render_fence g =
       some .signaled)) :=
  ⟨rfl, rfl,
   C10_out_of_date_leaves_slot_intact envOutOfDate engine0 rfl rfl (by decide)⟩

/-- C7: immediateSubmit resets only its dedicated immediate fence and
dedicated command buffer (identities disjoint from every FrameSlot's),
records the callback's commands, submits them to the graphics queue with
the immediate fence, and returns non-fatally exactly when that fence is
observed signaled within the bounded wait — its last driver call; it
never waits on, resets, or otherwise mutates any FrameSlot state. -/
theorem C7_immediate_submit_isolated (gpu_done : Bool) (cb : Nat)
    (e : phVkEngine) :
    (phVkEngine.immediateSubmit gpu_done cb e).engine.frames = e.frames ∧
    (phVkEngine.immediateSubmit gpu_done cb e).engine.frame_number =
      e.frame_number ∧
    (phVkEngine.immediateSubmit gpu_done cb e).engine.resize_requested =
      e.resize_requested ∧
    (∀ i b, EngineEvent.fenceWait (.slotFence i) b ∉
      (phVkEngine.immediateSubmit gpu_done cb e).trace) ∧
    (∀ i, EngineEvent.fenceReset (.slotFence i) ∉
      (phVkEngine.immediateSubmit gpu_done cb e).trace) ∧
    (∀ i, EngineEvent.cmdReset (.slotCmd i) ∉
      (phVkEngine.immediateSubmit gpu_done cb e).trace) ∧
    EngineEvent.fenceReset .immFence ∈
      (phVkEngine.immediateSubmit gpu_done cb e).trace ∧
    EngineEvent.cmdReset .immCmd ∈
      (phVkEngine.immediateSubmit gpu_done cb e).trace ∧
    EngineEvent.recordImmediate ∈
      (phVkEngine.immediateSubmit gpu_done cb e).trace ∧
    EngineEvent.queueSubmit .immFence ∈
      (phVkEngine.immediateSubmit gpu_done cb e).trace ∧
    (∀ i, FenceId.immFence ≠ FenceId.slotFence i) ∧
    ((phVkEngine.immediateSubmit gpu_done cb e).fatal = false ↔ gpu_done = true) ∧
    ((phVkEngine.immediateSubmit gpu_done cb e).fatal = false →
      (phVkEngine.immediateSubmit gpu_done cb e).trace.getLast? =
        some (EngineEvent.fenceWait .immFence true) ∧
      (phVkEngine.immediateSubmit gpu_done cb e).engine.imm_fence = .signaled ∧
      (phVkEngine.immediateSubmit gpu_done cb e).engine.imm_command_buffer =
        some cb) := by
  cases gpu_done <;>
    simp [phVkEngine.immediateSubmit, waitFence]

/-- Witness for C7 at a freshly initialized engine with the GPU finishing
in time. -/
theorem C7_witness :
    (phVkEngine.immediateSubmit true 7 engine0).engine.frames =
      engine0.frames ∧
    (∀ i b, EngineEvent.fenceWait (.slotFence i) b ∉
      (phVkEngine.immediateSubmit true 7 engine0).trace) ∧
    ((phVkEngine.immediateSubmit true 7 engine0).fatal = false ↔ true = true) ∧
    ((phVkEngine.immediateSubmit true 7 engine0).fatal = false →
      (phVkEngine.immediateSubmit true 7 engine0).trace.getLast? =
        some (EngineEvent.fenceWait .immFence true) ∧
      (phVkEngine.immediateSubmit true 7 engine0).engine.imm_fence = .signaled ∧
      (phVkEngine.immediateSubmit true 7 engine0).engine.imm_command_buffer =
        some 7) :=
  ⟨(C7_immediate_submit_isolated true 7 engine0).1,
   (C7_immediate_submit_isolated true 7 engine0).2.2.2.1,
   (C7_immediate_submit_isolated true 7 engine0).2.2.2.2.2.2.2.2.2.2.2.1,
   (C7_immediate_submit_isolated true 7 engine0).2.2.2.2.2.2.2.2.2.2.2.2⟩

/-- C9 counterexample: a missing shader file is not fatal.  The loader
returns false, and initBackgroundPipelines merely logs an error and keeps
going: it does not abort, and pipeline creation still proceeds. -/
theorem C9_counterexample :
    (load_shader_module none true).ok = false ∧
    (load_shader_module none true).module = none ∧
    (initBackgroundPipelines none (some [1, 2, 3, 4])).aborted = false ∧
    (initBackgroundPipelines none (some [1, 2, 3, 4])).pipelines_created = true ∧
    (initBackgroundPipelines none (some [1, 2, 3, 4])).gradient_error_logged =
      true := by
  decide

/-- C9 (amended): the loader reads an existing file into the uint32 word
blob and creates a shader module from it, returning true; on a missing
file it returns false without creating a module; the caller
(initBackgroundPipelines) logs an error for each failed load and
continues — a missing shader file is not fatal. -/
theorem C9_loader_behavior (bytes : List Nat) (f s : Option (List Nat)) :
    (load_shader_module (some bytes) true).ok = true ∧
    (load_shader_module (some bytes) true).module = some (spirvWords bytes) ∧
    (load_shader_module none true).ok = false ∧
    (load_shader_module none true).module = none ∧
    (initBackgroundPipelines f s).aborted = false ∧
    (initBackgroundPipelines f s).pipelines_created = true ∧
    (initBackgroundPipelines f s).gradient_error_logged =
      !(load_shader_module f true).ok ∧
    (initBackgroundPipelines f s).sky_error_logged =
      !(load_shader_module s true).ok := by
  refine ⟨?_, ?_, rfl, rfl, rfl, rfl, rfl, rfl⟩ <;> simp [load_shader_module]

/-- Witness for C5 at a concrete three-element action list. -/
theorem C5_witness :
    (([1, 2, 3] : List Nat).foldl DeleteQueue.pushFunction DeleteQueue.empty).flush.1 =
      ([1, 2, 3] : List Nat).reverse ∧
    (([1, 2, 3] : List Nat).foldl DeleteQueue.pushFunction DeleteQueue.empty).flush.2.fifo =
      [] ∧
    (∀ a b : Nat,
      ((DeleteQueue.empty.pushFunction a).pushFunction b).flush.1 = [b, a]) :=
  C5_flush_reverse Nat [1, 2, 3]

/-- Witness for C9 (amended) at a concrete four-byte file and a missing
gradient shader. -/
theorem C9_witness :
    (load_shader_module (some [7, 8, 9, 10]) true).ok = true ∧
    (load_shader_module (some [7, 8, 9, 10]) true).module =
      some (spirvWords [7, 8, 9, 10]) ∧
    (load_shader_module none true).ok = false ∧
    (load_shader_module none true).module = none ∧
    (initBackgroundPipelines none (some [7, 8, 9, 10])).aborted = false ∧
    (initBackgroundPipelines none (some [7, 8, 9, 10])).pipelines_created = true ∧
    (initBackgroundPipelines none (some [7, 8, 9, 10])).gradient_error_logged =
      !(load_shader_module none true).ok ∧
    (initBackgroundPipelines none (some [7, 8, 9, 10])).sky_error_logged =
      !(load_shader_module (some [7, 8, 9, 10]) true).ok :=
  C9_loader_behavior [7, 8, 9, 10] none (some [7, 8, 9, 10])
